import Mathlib

/-!
Shallow embedding of the TI ADS79xx SPI ADC driver core
(`src/linux/iio/ti-ads79xx.c`).

Machine integers are modelled as `Nat`, with an explicit `% 2 ^ 16` at every
point where the C code stores into a `u16`; C `int` values that can carry
negative error codes are modelled as `Int`.  The SPI transport and the
regulator are external services: their outcomes (`spi_sync` return code,
received words, regulator voltage) are passed in as parameters.
-/

/-- Bit 12 of the control register word: manual-channel-select mode. -/
def ADS79XX_CR_MANUAL : Nat := 1 <<< 12

/-- Bit 11 of the control register word: latch the new configuration. -/
def ADS79XX_CR_WRITE : Nat := 1 <<< 11

/-- Channel field of the control register word: bits 10..7. -/
def ADS79XX_CR_CHAN (ch : Nat) : Nat := ch <<< 7

/-- Bit 6 of the control register word: 2 x Vref input range. -/
def ADS79XX_CR_RANGE_5V : Nat := 1 <<< 6

/-- Maximum number of channels of any chip variant. -/
def ADS79XX_MAX_CHAN : Nat := 16

/-- EXTRACT(val, dec, bits) from the source: `(val >> dec) & ((1 << bits) - 1)`. -/
def EXTRACT (val dec bits : Nat) : Nat := (val >>> dec) &&& ((1 <<< bits) - 1)

/-- Linux errno for "try again". -/
def EAGAIN : Int := 11

/-- Linux errno for "invalid argument". -/
def EINVAL : Int := 22

/-- IIO info-mask selector for a raw sample read (external framework constant). -/
def IIO_CHAN_INFO_RAW : Nat := 0

/-- IIO info-mask selector for a scale read (external framework constant). -/
def IIO_CHAN_INFO_SCALE : Nat := 2

/-- IIO return tag: the result is a plain integer (external framework constant). -/
def IIO_VAL_INT : Int := 1

/-- IIO return tag: the result is the fraction val / val2 (external framework constant). -/
def IIO_VAL_FRACTIONAL : Int := 10

/-- Return value of a handled interrupt (external framework constant). -/
def IRQ_HANDLED : Nat := 1

/-- Kind of an IIO channel: an analog voltage input or the software timestamp. -/
inductive IioChanType where
  | voltage
  | timestamp
deriving DecidableEq

/-- Scan-type descriptor of an IIO channel (`struct iio_chan_spec.scan_type`). -/
structure IioScanType where
  sign : Char
  realbits : Nat
  storagebits : Nat
  shift : Nat
deriving DecidableEq

/-- The fields of `struct iio_chan_spec` that the driver populates. -/
structure IioChanSpec where
  type : IioChanType
  indexed : Bool
  channel : Int
  address : Nat
  scan_index : Nat
  scan_type : IioScanType
deriving DecidableEq

/-- ADS79XX_V_CHAN(index, bits) from the source: one voltage channel descriptor. -/
def ADS79XX_V_CHAN (index bits : Nat) : IioChanSpec :=
  { type := IioChanType.voltage
    indexed := true
    channel := Int.ofNat index
    address := index
    scan_index := index
    scan_type :=
      { sign := 'u'
        realbits := bits
        storagebits := 16
        shift := 12 - bits } }

/-- IIO_CHAN_SOFT_TIMESTAMP(si): the software timestamp channel descriptor
(external framework macro). -/
def IIO_CHAN_SOFT_TIMESTAMP (si : Nat) : IioChanSpec :=
  { type := IioChanType.timestamp
    indexed := false
    channel := -1
    address := 0
    scan_index := si
    scan_type :=
      { sign := 's'
        realbits := 64
        storagebits := 64
        shift := 0 } }

/-- DECLARE_ADS79XX_*_CHANNELS from the source: `n` voltage channels at the
given resolution followed by the software timestamp channel at index `n`. -/
def DECLARE_ADS79XX_CHANNELS (n bits : Nat) : List IioChanSpec :=
  ((List.range n).map fun i => ADS79XX_V_CHAN i bits) ++ [IIO_CHAN_SOFT_TIMESTAMP n]

def ti_ads7950_channels : List IioChanSpec := DECLARE_ADS79XX_CHANNELS 4 12

def ti_ads7951_channels : List IioChanSpec := DECLARE_ADS79XX_CHANNELS 8 12

def ti_ads7952_channels : List IioChanSpec := DECLARE_ADS79XX_CHANNELS 12 12

def ti_ads7953_channels : List IioChanSpec := DECLARE_ADS79XX_CHANNELS 16 12

def ti_ads7954_channels : List IioChanSpec := DECLARE_ADS79XX_CHANNELS 4 10

def ti_ads7955_channels : List IioChanSpec := DECLARE_ADS79XX_CHANNELS 8 10

def ti_ads7956_channels : List IioChanSpec := DECLARE_ADS79XX_CHANNELS 12 10

def ti_ads7957_channels : List IioChanSpec := DECLARE_ADS79XX_CHANNELS 16 10

def ti_ads7958_channels : List IioChanSpec := DECLARE_ADS79XX_CHANNELS 4 8

def ti_ads7959_channels : List IioChanSpec := DECLARE_ADS79XX_CHANNELS 8 8

def ti_ads7960_channels : List IioChanSpec := DECLARE_ADS79XX_CHANNELS 12 8

def ti_ads7961_channels : List IioChanSpec := DECLARE_ADS79XX_CHANNELS 16 8

/-- Per-variant metadata (`struct ti_ads79xx_chip_info`). -/
structure TiAds79xxChipInfo where
  channels : List IioChanSpec
  num_channels : Nat
deriving DecidableEq

/-- The twelve-entry chip-info table from the source. -/
def ti_ads79xx_chip_info : List TiAds79xxChipInfo :=
  [ { channels := ti_ads7950_channels, num_channels := ti_ads7950_channels.length }
  , { channels := ti_ads7951_channels, num_channels := ti_ads7951_channels.length }
  , { channels := ti_ads7952_channels, num_channels := ti_ads7952_channels.length }
  , { channels := ti_ads7953_channels, num_channels := ti_ads7953_channels.length }
  , { channels := ti_ads7954_channels, num_channels := ti_ads7954_channels.length }
  , { channels := ti_ads7955_channels, num_channels := ti_ads7955_channels.length }
  , { channels := ti_ads7956_channels, num_channels := ti_ads7956_channels.length }
  , { channels := ti_ads7957_channels, num_channels := ti_ads7957_channels.length }
  , { channels := ti_ads7958_channels, num_channels := ti_ads7958_channels.length }
  , { channels := ti_ads7959_channels, num_channels := ti_ads7959_channels.length }
  , { channels := ti_ads7960_channels, num_channels := ti_ads7960_channels.length }
  , { channels := ti_ads7961_channels, num_channels := ti_ads7961_channels.length } ]

/-- Driver state (`struct ti_ads79xx_state`).  `tx_buf` models the prefix of
the TX buffer written by the last scan-mode update; `ring_xfer_len` is the
recorded SPI transfer length in bytes. -/
structure TiAds79xxState where
  settings : Nat
  single_tx : Nat
  single_rx : Nat
  tx_buf : List Nat
  rx_buf : List Nat
  ring_xfer_len : Nat
deriving DecidableEq

/-- Driver state as initialized by `ti_ads79xx_probe`: the private data is
allocated zeroed and `settings` is set to `MANUAL | RANGE_5V`. -/
def ti_ads79xx_probe_state : TiAds79xxState :=
  { settings := ADS79XX_CR_MANUAL ||| ADS79XX_CR_RANGE_5V
    single_tx := 0
    single_rx := 0
    tx_buf := []
    rx_buf := []
    ring_xfer_len := 0 }

/-- The control-word expression used at lines 243 and 287 of the source:
`ADS79XX_CR_WRITE | ADS79XX_CR_CHAN(ch) | settings` (a C `int`). -/
def ti_ads79xx_encode (ch settings : Nat) : Nat :=
  ADS79XX_CR_WRITE ||| ADS79XX_CR_CHAN ch ||| settings

/-- The command word as stored into a 16-bit TX slot: the control-word
expression truncated to `u16`. -/
def ti_ads79xx_cmd (ch settings : Nat) : Nat :=
  ti_ads79xx_encode ch settings % 2 ^ 16

/-- ti_ads79xx_update_scan_mode: for each set bit of the scan mask below
`num_channels`, in ascending order, store a command word into the TX buffer,
then store two zero words, and record the transfer length in bytes. -/
def ti_ads79xx_update_scan_mode (st : TiAds79xxState) (num_channels : Nat)
    (active_scan_mask : Nat) : TiAds79xxState × Int :=
  let buf := (List.range num_channels).foldl
    (fun buf i =>
      if active_scan_mask.testBit i then buf ++ [ti_ads79xx_cmd i st.settings]
      else buf) []
  let buf := buf ++ [0, 0]
  ({ st with tx_buf := buf, ring_xfer_len := buf.length * 2 }, 0)

/-- ti_ads79xx_scan_direct: store the command into `single_tx`, run the
three-transfer SPI message (outcome passed in as `spiRet` and, on success, the
received word `rxWord` deposited into `single_rx`), then validate the channel
tag in bits 15..12 and extract the 12-bit payload. -/
def ti_ads79xx_scan_direct (st : TiAds79xxState) (ch : Nat) (spiRet : Int)
    (rxWord : Nat) : TiAds79xxState × Int :=
  let st1 := { st with single_tx := ti_ads79xx_cmd ch st.settings }
  if spiRet ≠ 0 then (st1, spiRet)
  else
    let st2 := { st1 with single_rx := rxWord % 2 ^ 16 }
    if EXTRACT st2.single_rx 12 4 ≠ ch then (st2, -EAGAIN)
    else (st2, Int.ofNat (EXTRACT st2.single_rx 0 12))

/-- ti_ads79xx_get_range: read the regulator voltage in microvolts (passed in
as `vref`), propagate a negative reading, otherwise divide by 1000 and double
when the 5V-range bit is set in the settings word. -/
def ti_ads79xx_get_range (st : TiAds79xxState) (vref : Int) : Int :=
  if vref < 0 then vref
  else
    let v := vref / 1000
    if st.settings &&& ADS79XX_CR_RANGE_5V ≠ 0 then v * 2 else v

/-- ti_ads79xx_read_raw: dispatch on the info mask.  RAW runs a single-shot
read and right-shifts the sample by the channel's shift; SCALE reports the
full-scale millivolts over `2 ^ realbits - 1`; anything else is `-EINVAL`.
The result is (state, return code, val, val2). -/
def ti_ads79xx_read_raw (st : TiAds79xxState) (chan : IioChanSpec) (m : Nat)
    (spiRet : Int) (rxWord : Nat) (vref : Int) :
    TiAds79xxState × Int × Int × Int :=
  if m = IIO_CHAN_INFO_RAW then
    let r := ti_ads79xx_scan_direct st chan.address spiRet rxWord
    if r.2 < 0 then (r.1, r.2, 0, 0)
    else (r.1, IIO_VAL_INT, Int.ofNat (r.2.toNat >>> chan.scan_type.shift), 0)
  else if m = IIO_CHAN_INFO_SCALE then
    let ret := ti_ads79xx_get_range st vref
    if ret < 0 then (st, ret, 0, 0)
    else (st, IIO_VAL_FRACTIONAL, ret, Int.ofNat ((1 <<< chan.scan_type.realbits) - 1))
  else
    (st, -EINVAL, 0, 0)

/-- Observable outcome of one trigger-handler invocation: the new state, the
payload pushed to the consumer buffer (words and timestamp) if any, the number
of trigger-done notifications issued, and the IRQ return value. -/
structure TriggerHandlerResult where
  state : TiAds79xxState
  pushed : Option (List Nat × Int)
  done_calls : Nat
  ret : Nat
deriving DecidableEq

/-- ti_ads79xx_trigger_handler: run the prepared ring SPI message (outcome
passed in as `spiRet`; on success the received words land in `rx_buf`); on
success push the words from RX offset 2 with the timestamp; in either case
notify trigger-done exactly once and return IRQ_HANDLED. -/
def ti_ads79xx_trigger_handler (st : TiAds79xxState) (spiRet : Int)
    (rxWords : List Nat) (ts : Int) : TriggerHandlerResult :=
  if spiRet ≠ 0 then
    { state := st, pushed := none, done_calls := 1, ret := IRQ_HANDLED }
  else
    let st1 := { st with rx_buf := rxWords }
    { state := st1
      pushed := some (st1.rx_buf.drop 2, ts)
      done_calls := 1
      ret := IRQ_HANDLED }

/-- Number of set bits of a natural number. -/
def popcount (m : Nat) : Nat :=
  if h : m = 0 then 0 else m % 2 + popcount (m / 2)
termination_by m
decreasing_by exact Nat.div_lt_self (Nat.pos_of_ne_zero h) Nat.one_lt_two

theorem popcount_zero : popcount 0 = 0 := by
  rw [popcount]
  rfl

theorem popcount_eq (m : Nat) : popcount m = m % 2 + popcount (m / 2) := by
  by_cases h : m = 0
  · subst h
    simp [popcount_zero]
  · rw [popcount]
    simp [h]

/-- popcount of a mask below `2 ^ n` counts the set bits among positions
`0..n-1`. -/
theorem popcount_eq_length_filter :
    ∀ (n m : Nat), m < 2 ^ n →
      popcount m = ((List.range n).filter m.testBit).length := by
  intro n
  induction n with
  | zero =>
    intro m hm
    interval_cases m
    simp [popcount_zero]
  | succ n ih =>
    intro m hm
    have hdiv : m / 2 < 2 ^ n := by
      have : m < 2 ^ n * 2 := by rw [pow_succ] at hm; exact hm
      omega
    rw [popcount_eq, ih (m / 2) hdiv]
    rw [List.range_succ_eq_map]
    rw [List.filter_cons]
    have hmap : ((List.range n).map Nat.succ).filter m.testBit
        = ((List.range n).filter fun i => m.testBit (Nat.succ i)).map Nat.succ := by
      rw [List.filter_map]
      rfl
    have hsucc : (fun i => m.testBit (Nat.succ i)) = (m / 2).testBit := by
      funext i
      rw [Nat.testBit_succ]
    rw [hmap, hsucc]
    rcases Nat.mod_two_eq_zero_or_one m with h | h
    · have : m.testBit 0 = false := by
        rw [Nat.testBit_zero]
        simp [h]
      simp [this, h]
    · have : m.testBit 0 = true := by
        rw [Nat.testBit_zero]
        simp [h]
      simp [this, h]
      omega

/-- Accumulating a filtered-and-mapped element list with `foldl` over
conditional appends. -/
theorem foldl_append_if {α β : Type} (p : α → Bool) (f : α → β) :
    ∀ (l : List α) (acc : List β),
      l.foldl (fun buf i => if p i then buf ++ [f i] else buf) acc
        = acc ++ (l.filter p).map f := by
  intro l
  induction l with
  | nil =>
    intro acc
    simp
  | cons a l ih =>
    intro acc
    by_cases h : p a
    · simp [List.foldl_cons, h, ih, List.filter_cons]
    · simp [List.foldl_cons, h, ih, List.filter_cons]

/-- Closed form of the TX buffer written by `ti_ads79xx_update_scan_mode`. -/
theorem ti_ads79xx_update_scan_mode_tx_buf (st : TiAds79xxState)
    (n mask : Nat) :
    (ti_ads79xx_update_scan_mode st n mask).1.tx_buf
      = ((List.range n).filter mask.testBit).map
          (fun i => ti_ads79xx_cmd i st.settings) ++ [0, 0] := by
  simp [ti_ads79xx_update_scan_mode, foldl_append_if]

/-- The recorded transfer length is twice the number of TX words written. -/
theorem ti_ads79xx_update_scan_mode_len (st : TiAds79xxState) (n mask : Nat) :
    (ti_ads79xx_update_scan_mode st n mask).1.ring_xfer_len
      = (ti_ads79xx_update_scan_mode st n mask).1.tx_buf.length * 2 := by
  simp [ti_ads79xx_update_scan_mode]

/-- C1: for every scan mask over the device's channels, after
`update_scan_mode` the TX buffer holds `popcount mask + 2` words; the first
`popcount mask` of them are the command encodings of the set bits of the mask
in ascending channel order, the last two are zero, and the recorded SPI
transfer byte length is `(popcount mask + 2) * 2`. -/
theorem ti_ads79xx_update_scan_mode_spec (st : TiAds79xxState) (n mask : Nat)
    (hmask : mask < 2 ^ n) :
    (ti_ads79xx_update_scan_mode st n mask).1.tx_buf.length
        = popcount mask + 2 ∧
    (ti_ads79xx_update_scan_mode st n mask).1.tx_buf.take (popcount mask)
        = ((List.range n).filter mask.testBit).map
            (fun i => ti_ads79xx_cmd i st.settings) ∧
    (ti_ads79xx_update_scan_mode st n mask).1.tx_buf.drop (popcount mask)
        = [0, 0] ∧
    (ti_ads79xx_update_scan_mode st n mask).1.ring_xfer_len
        = (popcount mask + 2) * 2 := by
  have htx := ti_ads79xx_update_scan_mode_tx_buf st n mask
  have hlen : (((List.range n).filter mask.testBit).map
      (fun i => ti_ads79xx_cmd i st.settings)).length = popcount mask := by
    rw [List.length_map, ← popcount_eq_length_filter n mask hmask]
  refine ⟨?_, ?_, ?_, ?_⟩
  · rw [htx, List.length_append, hlen]
    rfl
  · rw [htx, ← hlen, List.take_left]
  · rw [htx, ← hlen, List.drop_left]
  · rw [ti_ads79xx_update_scan_mode_len, htx, List.length_append, hlen]
    rfl

/-- C10: `update_scan_mode` returns 0 for every input, and for the empty mask
it still writes the two zero padding words and records a 4-byte transfer. -/
theorem ti_ads79xx_update_scan_mode_total :
    (∀ (st : TiAds79xxState) (n mask : Nat),
        (ti_ads79xx_update_scan_mode st n mask).2 = 0) ∧
    (∀ (st : TiAds79xxState) (n : Nat),
        (ti_ads79xx_update_scan_mode st n 0).1.tx_buf = [0, 0] ∧
        (ti_ads79xx_update_scan_mode st n 0).1.ring_xfer_len = 4) := by
  constructor
  · intro st n mask
    simp [ti_ads79xx_update_scan_mode]
  · intro st n
    have htx := ti_ads79xx_update_scan_mode_tx_buf st n 0
    have hnil : (List.range n).filter (Nat.testBit 0) = [] :=
      List.filter_eq_nil_iff.mpr (fun a _ => by simp)
    rw [hnil, List.map_nil, List.nil_append] at htx
    refine ⟨htx, ?_⟩
    rw [ti_ads79xx_update_scan_mode_len, htx]
    rfl

/-- C2: in the single-shot read, an SPI transport error is returned unchanged;
on a successful exchange the function returns the lower 12 bits of the
received word as a non-negative integer when the upper 4 bits equal the
requested channel, and `-EAGAIN` when they differ. -/
theorem ti_ads79xx_scan_direct_spec (st : TiAds79xxState) (ch : Nat)
    (spiRet : Int) (rxWord : Nat) (hrx : rxWord < 2 ^ 16) :
    (spiRet ≠ 0 → (ti_ads79xx_scan_direct st ch spiRet rxWord).2 = spiRet) ∧
    (spiRet = 0 → EXTRACT rxWord 12 4 = ch →
      (ti_ads79xx_scan_direct st ch spiRet rxWord).2
          = Int.ofNat (EXTRACT rxWord 0 12) ∧
      0 ≤ (ti_ads79xx_scan_direct st ch spiRet rxWord).2) ∧
    (spiRet = 0 → EXTRACT rxWord 12 4 ≠ ch →
      (ti_ads79xx_scan_direct st ch spiRet rxWord).2 = -EAGAIN) := by
  have hmod : rxWord % 65536 = rxWord := Nat.mod_eq_of_lt (by omega)
  refine ⟨fun h => ?_, fun h htag => ?_, fun h htag => ?_⟩
  · simp [ti_ads79xx_scan_direct, h]
  · subst h
    simp [ti_ads79xx_scan_direct, hmod, htag]
  · subst h
    simp [ti_ads79xx_scan_direct, hmod, htag]

/-- C6: every invocation of the trigger handler notifies trigger-done exactly
once and returns IRQ_HANDLED; on SPI failure nothing is pushed, and on success
the pushed payload starts at RX word offset 2. -/
theorem ti_ads79xx_trigger_handler_spec (st : TiAds79xxState) (spiRet : Int)
    (rxWords : List Nat) (ts : Int) :
    (ti_ads79xx_trigger_handler st spiRet rxWords ts).done_calls = 1 ∧
    (ti_ads79xx_trigger_handler st spiRet rxWords ts).ret = IRQ_HANDLED ∧
    (spiRet ≠ 0 →
      (ti_ads79xx_trigger_handler st spiRet rxWords ts).pushed = none) ∧
    (spiRet = 0 →
      (ti_ads79xx_trigger_handler st spiRet rxWords ts).pushed
        = some ((ti_ads79xx_trigger_handler st spiRet rxWords ts).state.rx_buf.drop 2, ts) ∧
      (ti_ads79xx_trigger_handler st spiRet rxWords ts).state.rx_buf = rxWords) := by
  by_cases h : spiRet = 0 <;> simp [ti_ads79xx_trigger_handler, h]

/-- C8: a read-raw call whose info mask is neither RAW nor SCALE returns
`-EINVAL`. -/
theorem ti_ads79xx_read_raw_invalid_mask (st : TiAds79xxState)
    (chan : IioChanSpec) (m : Nat) (spiRet : Int) (rxWord : Nat) (vref : Int)
    (h1 : m ≠ IIO_CHAN_INFO_RAW) (h2 : m ≠ IIO_CHAN_INFO_SCALE) :
    (ti_ads79xx_read_raw st chan m spiRet rxWord vref).2.1 = -EINVAL := by
  simp [ti_ads79xx_read_raw, h1, h2]

/-- ti_ads79xx_scan_direct leaves the settings word unchanged. -/
theorem ti_ads79xx_scan_direct_settings (st : TiAds79xxState) (ch : Nat)
    (spiRet : Int) (rxWord : Nat) :
    (ti_ads79xx_scan_direct st ch spiRet rxWord).1.settings = st.settings := by
  simp only [ti_ads79xx_scan_direct]
  split
  · rfl
  · split <;> rfl

/-- ti_ads79xx_read_raw leaves the settings word unchanged. -/
theorem ti_ads79xx_read_raw_settings (st : TiAds79xxState)
    (chan : IioChanSpec) (m : Nat) (spiRet : Int) (rxWord : Nat) (vref : Int) :
    (ti_ads79xx_read_raw st chan m spiRet rxWord vref).1.settings
      = st.settings := by
  simp only [ti_ads79xx_read_raw]
  split
  · split
    · exact ti_ads79xx_scan_direct_settings st chan.address spiRet rxWord
    · exact ti_ads79xx_scan_direct_settings st chan.address spiRet rxWord
  · split
    · split <;> rfl
    · rfl

/-- C9: the settings word is set at probe time to `MANUAL | RANGE_5V`, every
operation preserves it, and no bit of it other than bit 12 and bit 6 is set. -/
theorem ti_ads79xx_settings_invariant :
    ti_ads79xx_probe_state.settings
        = (ADS79XX_CR_MANUAL ||| ADS79XX_CR_RANGE_5V) ∧
    (∀ (st : TiAds79xxState) (n mask : Nat),
      (ti_ads79xx_update_scan_mode st n mask).1.settings = st.settings) ∧
    (∀ (st : TiAds79xxState) (ch : Nat) (spiRet : Int) (rxWord : Nat),
      (ti_ads79xx_scan_direct st ch spiRet rxWord).1.settings = st.settings) ∧
    (∀ (st : TiAds79xxState) (spiRet : Int) (rxWords : List Nat) (ts : Int),
      (ti_ads79xx_trigger_handler st spiRet rxWords ts).state.settings
        = st.settings) ∧
    (∀ (st : TiAds79xxState) (chan : IioChanSpec) (m : Nat) (spiRet : Int)
        (rxWord : Nat) (vref : Int),
      (ti_ads79xx_read_raw st chan m spiRet rxWord vref).1.settings
        = st.settings) ∧
    (∀ b, ti_ads79xx_probe_state.settings.testBit b = true → b = 12 ∨ b = 6) := by
  refine ⟨rfl, ?_, ?_, ?_, ?_, ?_⟩
  · intro st n mask
    simp [ti_ads79xx_update_scan_mode]
  · intro st ch spiRet rxWord
    exact ti_ads79xx_scan_direct_settings st ch spiRet rxWord
  · intro st spiRet rxWords ts
    by_cases h : spiRet = 0 <;> simp [ti_ads79xx_trigger_handler, h]
  · intro st chan m spiRet rxWord vref
    exact ti_ads79xx_read_raw_settings st chan m spiRet rxWord vref
  · intro b hb
    by_cases hb13 : b < 13
    · revert hb
      interval_cases b <;> decide
    · exfalso
      have hlt : ti_ads79xx_probe_state.settings < 2 ^ b := by
        have h1 : ti_ads79xx_probe_state.settings < 2 ^ 13 := by decide
        have h2 : (2 : Nat) ^ 13 ≤ 2 ^ b :=
          Nat.pow_le_pow_right (by norm_num) (by omega)
        omega
      rw [Nat.testBit_lt_two_pow hlt] at hb
      exact Bool.false_ne_true hb

/-- Every voltage channel in the chip-info table has `shift = 12 - realbits`
and a resolution of at most 12 bits. -/
theorem ti_ads79xx_chan_table_voltage_props :
    ∀ info ∈ ti_ads79xx_chip_info, ∀ c ∈ info.channels,
      c.type = IioChanType.voltage →
        c.scan_type.shift = 12 - c.scan_type.realbits ∧
        c.scan_type.realbits ≤ 12 := by
  decide

/-- C7: for every chip variant and every voltage channel descriptor in its
channel table, the shift field equals 12 minus the variant's resolution. -/
theorem ti_ads79xx_channel_shift_spec :
    ∀ info ∈ ti_ads79xx_chip_info, ∀ c ∈ info.channels,
      c.type = IioChanType.voltage →
        c.scan_type.shift = 12 - c.scan_type.realbits := by
  intro info hinfo c hc hv
  exact (ti_ads79xx_chan_table_voltage_props info hinfo c hc hv).1

/-- Witness for C7 at the first variant's channel 0. -/
theorem ti_ads79xx_channel_shift_witness :
    ({ channels := ti_ads7950_channels,
       num_channels := ti_ads7950_channels.length } : TiAds79xxChipInfo)
        ∈ ti_ads79xx_chip_info ∧
    ADS79XX_V_CHAN 0 12 ∈ ti_ads7950_channels ∧
    (ADS79XX_V_CHAN 0 12).type = IioChanType.voltage ∧
    (ADS79XX_V_CHAN 0 12).scan_type.shift
      = 12 - (ADS79XX_V_CHAN 0 12).scan_type.realbits :=
  ⟨by decide, by decide, by decide,
    ti_ads79xx_channel_shift_spec
      { channels := ti_ads7950_channels,
        num_channels := ti_ads7950_channels.length }
      (by decide) (ADS79XX_V_CHAN 0 12) (by decide) (by decide)⟩

/-- C4: a negative regulator reading is propagated unchanged by the range
computation and by the SCALE read; for a non-negative reading of `vref`
microvolts the full-scale range is `2 * (vref / 1000)` millivolts when the
5V-range bit is set and `vref / 1000` when it is clear, and the SCALE read
returns the fraction with that full scale as numerator and
`2 ^ realbits - 1` as denominator. -/
theorem ti_ads79xx_get_range_spec (st : TiAds79xxState) (chan : IioChanSpec)
    (vref : Int) :
    (vref < 0 → ti_ads79xx_get_range st vref = vref ∧
      (ti_ads79xx_read_raw st chan IIO_CHAN_INFO_SCALE 0 0 vref).2.1 = vref) ∧
    (0 ≤ vref →
      (st.settings &&& ADS79XX_CR_RANGE_5V ≠ 0 →
        ti_ads79xx_get_range st vref = 2 * (vref / 1000)) ∧
      (st.settings &&& ADS79XX_CR_RANGE_5V = 0 →
        ti_ads79xx_get_range st vref = vref / 1000) ∧
      (ti_ads79xx_read_raw st chan IIO_CHAN_INFO_SCALE 0 0 vref).2.1
          = IIO_VAL_FRACTIONAL ∧
      (ti_ads79xx_read_raw st chan IIO_CHAN_INFO_SCALE 0 0 vref).2.2.1
          = ti_ads79xx_get_range st vref ∧
      (ti_ads79xx_read_raw st chan IIO_CHAN_INFO_SCALE 0 0 vref).2.2.2
          = Int.ofNat (2 ^ chan.scan_type.realbits - 1)) := by
  constructor
  · intro h
    have hr : ti_ads79xx_get_range st vref = vref := by
      simp [ti_ads79xx_get_range, h]
    have hns : ti_ads79xx_get_range st vref < 0 := by
      rw [hr]
      exact h
    refine ⟨hr, ?_⟩
    simp [ti_ads79xx_read_raw, IIO_CHAN_INFO_SCALE, IIO_CHAN_INFO_RAW, hns, hr, h]
  · intro h
    have h1000 : (0 : Int) ≤ vref / 1000 := Int.ediv_nonneg h (by norm_num)
    have hrnn : 0 ≤ ti_ads79xx_get_range st vref := by
      simp only [ti_ads79xx_get_range, if_neg (not_lt.mpr h)]
      split
      · exact mul_nonneg h1000 (by norm_num)
      · exact h1000
    have hns : ¬ ti_ads79xx_get_range st vref < 0 := not_lt.mpr hrnn
    refine ⟨?_, ?_, ?_, ?_, ?_⟩
    · intro h5
      simp [ti_ads79xx_get_range, not_lt.mpr h, h5, mul_comm]
    · intro h5
      simp [ti_ads79xx_get_range, not_lt.mpr h, h5]
    · simp [ti_ads79xx_read_raw, IIO_CHAN_INFO_SCALE, IIO_CHAN_INFO_RAW, hns]
    · simp [ti_ads79xx_read_raw, IIO_CHAN_INFO_SCALE, IIO_CHAN_INFO_RAW, hns]
    · simp [ti_ads79xx_read_raw, IIO_CHAN_INFO_SCALE, IIO_CHAN_INFO_RAW, hns,
        Nat.one_shiftLeft]

/-- C5: for a voltage channel of any variant, a successful single-shot sample
(the low 12 bits of the received word) is returned by the RAW read
right-shifted by `12 - realbits`, and the result lies in
`0 .. 2 ^ realbits - 1`. -/
theorem ti_ads79xx_read_raw_raw_spec :
    ∀ info ∈ ti_ads79xx_chip_info, ∀ chan ∈ info.channels,
      chan.type = IioChanType.voltage →
      ∀ (st : TiAds79xxState) (rxWord : Nat) (vref : Int),
        rxWord < 2 ^ 16 →
        EXTRACT rxWord 12 4 = chan.address →
        (ti_ads79xx_read_raw st chan IIO_CHAN_INFO_RAW 0 rxWord vref).2.1
            = IIO_VAL_INT ∧
        (ti_ads79xx_read_raw st chan IIO_CHAN_INFO_RAW 0 rxWord vref).2.2.1
            = Int.ofNat
                (EXTRACT rxWord 0 12 >>> (12 - chan.scan_type.realbits)) ∧
        0 ≤ (ti_ads79xx_read_raw st chan IIO_CHAN_INFO_RAW 0 rxWord vref).2.2.1 ∧
        (ti_ads79xx_read_raw st chan IIO_CHAN_INFO_RAW 0 rxWord vref).2.2.1
            < Int.ofNat (2 ^ chan.scan_type.realbits) := by
  intro info hinfo chan hchan hv st rxWord vref hrx htag
  obtain ⟨hshift, hrb⟩ :=
    ti_ads79xx_chan_table_voltage_props info hinfo chan hchan hv
  have hmod : rxWord % 65536 = rxWord := Nat.mod_eq_of_lt (by omega)
  have hsd2 : (ti_ads79xx_scan_direct st chan.address 0 rxWord).2
      = Int.ofNat (EXTRACT rxWord 0 12) := by
    simp [ti_ads79xx_scan_direct, hmod, htag]
  have hnn : ¬ (ti_ads79xx_scan_direct st chan.address 0 rxWord).2 < 0 := by
    rw [hsd2]
    exact not_lt.mpr (Int.natCast_nonneg _)
  have hrr : ti_ads79xx_read_raw st chan IIO_CHAN_INFO_RAW 0 rxWord vref
      = ((ti_ads79xx_scan_direct st chan.address 0 rxWord).1, IIO_VAL_INT,
          Int.ofNat ((ti_ads79xx_scan_direct st chan.address 0 rxWord).2.toNat
            >>> chan.scan_type.shift), 0) := by
    simp [ti_ads79xx_read_raw, hnn]
  have hval : (ti_ads79xx_read_raw st chan IIO_CHAN_INFO_RAW 0 rxWord vref).2.2.1
      = Int.ofNat (EXTRACT rxWord 0 12 >>> (12 - chan.scan_type.realbits)) := by
    rw [hrr]
    simp [hsd2, hshift]
  have hext : EXTRACT rxWord 0 12 < 2 ^ 12 := by
    exact Nat.and_lt_two_pow _ (by decide)
  have hsh : EXTRACT rxWord 0 12 >>> (12 - chan.scan_type.realbits)
      < 2 ^ chan.scan_type.realbits := by
    rw [Nat.shiftRight_eq_div_pow]
    rw [Nat.div_lt_iff_lt_mul (Nat.pos_pow_of_pos _ (by norm_num))]
    calc EXTRACT rxWord 0 12 < 2 ^ 12 := hext
      _ = 2 ^ chan.scan_type.realbits
            * 2 ^ (12 - chan.scan_type.realbits) := by
          rw [← pow_add]
          congr 1
          omega
  refine ⟨by rw [hrr], hval, ?_, ?_⟩
  · rw [hval]
    exact Int.natCast_nonneg _
  · rw [hval]
    exact Int.ofNat_lt.mpr hsh

/-- Extracting a single bit equals the test of that bit. -/
theorem EXTRACT_one_bit (x d : Nat) :
    EXTRACT x d 1 = if x.testBit d then 1 else 0 := by
  simp only [EXTRACT]
  have h1 : ((1 <<< 1) - 1 : Nat) = 1 := by decide
  rw [h1, Nat.and_one_is_mod]
  have ht : (x >>> d).testBit 0 = x.testBit d := by
    rw [Nat.testBit_shiftRight]
    rfl
  rw [← ht, Nat.testBit_zero]
  rcases Nat.mod_two_eq_zero_or_one (x >>> d) with h | h
  · rw [h]
    simp
  · rw [h]
    simp

/-- When the extracted field s[10..7] is zero, each of those bits is clear. -/
theorem testBit_eq_false_of_extract74 {s : Nat} (h : EXTRACT s 7 4 = 0) :
    ∀ j, j < 4 → s.testBit (7 + j) = false := by
  intro j hj
  have h2 := congrArg (fun x => x.testBit j) h
  simp only [EXTRACT, Nat.testBit_and, Nat.testBit_shiftRight,
    Nat.zero_testBit] at h2
  have h15 : ((1 <<< 4) - 1 : Nat).testBit j = true := by
    have h4 : ((1 <<< 4) - 1 : Nat) = 15 := by decide
    rw [h4]
    interval_cases j <;> decide
  rw [h15, Bool.and_true] at h2
  exact h2

/-- C3 counterexample: at channel 0 and settings word 128 (bit 7 set, bit 12
clear) the control word produced by the source expression has bit 12 clear
and its bits 10..7 differ from the channel, so the claim as stated fails. -/
theorem ti_ads79xx_encode_claim_counterexample :
    ¬ ((ti_ads79xx_encode 0 128).testBit 12 = true ∧
       (ti_ads79xx_encode 0 128).testBit 11 = true ∧
       EXTRACT (ti_ads79xx_encode 0 128) 7 4 = 0 ∧
       EXTRACT (ti_ads79xx_encode 0 128) 6 1 = EXTRACT 128 6 1) := by
  decide

/-- C3 (amended): for every channel below 16 and every settings word whose
bit 12 is set and whose bits 10..7 are clear, the control word has bit 12
set, bit 11 set, bits 10..7 equal to the channel, and bit 6 equal to bit 6 of
the settings word. -/
theorem ti_ads79xx_encode_spec (c s : Nat) (hc : c < 16)
    (h12 : s.testBit 12 = true) (h74 : EXTRACT s 7 4 = 0) :
    (ti_ads79xx_encode c s).testBit 12 = true ∧
    (ti_ads79xx_encode c s).testBit 11 = true ∧
    EXTRACT (ti_ads79xx_encode c s) 7 4 = c ∧
    EXTRACT (ti_ads79xx_encode c s) 6 1 = EXTRACT s 6 1 := by
  have henc : ti_ads79xx_encode c s = 2048 ||| c <<< 7 ||| s := rfl
  have hc5 : c.testBit 5 = false := Nat.testBit_lt_two_pow (by omega)
  refine ⟨?_, ?_, ?_, ?_⟩
  · rw [henc]
    have e2 : (c <<< 7).testBit 12 = c.testBit 5 := by
      rw [Nat.testBit_shiftLeft]
      norm_num
    simp [Nat.testBit_or, e2, hc5, h12,
      (by decide : (2048 : Nat).testBit 12 = false)]
  · rw [henc]
    simp [Nat.testBit_or, (by decide : (2048 : Nat).testBit 11 = true)]
  · apply Nat.eq_of_testBit_eq
    intro j
    simp only [EXTRACT, Nat.testBit_and, Nat.testBit_shiftRight]
    have h15 : ((1 <<< 4) - 1 : Nat) = 15 := by decide
    rw [h15]
    by_cases hj : j < 4
    · have hs : s.testBit (7 + j) = false := testBit_eq_false_of_extract74 h74 j hj
      have h2048 : (2048 : Nat).testBit (7 + j) = false := by
        interval_cases j <;> decide
      have h15j : (15 : Nat).testBit j = true := by
        interval_cases j <;> decide
      have hshift : (c <<< 7).testBit (7 + j) = c.testBit j := by
        rw [Nat.testBit_shiftLeft]
        have h7 : 7 + j - 7 = j := by omega
        simp [h7]
      rw [henc]
      simp [Nat.testBit_or, h2048, h15j, hs, hshift]
    · have h16j : (16 : Nat) ≤ 2 ^ j := by
        calc (16 : Nat) = 2 ^ 4 := by norm_num
          _ ≤ 2 ^ j := Nat.pow_le_pow_right (by norm_num) (by omega)
      have h15j : (15 : Nat).testBit j = false :=
        Nat.testBit_lt_two_pow (by omega)
      have hcj : c.testBit j = false :=
        Nat.testBit_lt_two_pow (by omega)
      simp [h15j, hcj]
  · have hbit : (ti_ads79xx_encode c s).testBit 6 = s.testBit 6 := by
      rw [henc]
      have hc6 : (c <<< 7).testBit 6 = false := by
        rw [Nat.testBit_shiftLeft]
        norm_num
      simp [Nat.testBit_or, hc6,
        (by decide : (2048 : Nat).testBit 6 = false)]
    rw [EXTRACT_one_bit, EXTRACT_one_bit, hbit]

/-- Witness for C1 at mask {1,4,7} (= 146) over 17 channel slots. -/
theorem ti_ads79xx_update_scan_mode_witness :
    (146 : Nat) < 2 ^ 17 ∧
    ((ti_ads79xx_update_scan_mode ti_ads79xx_probe_state 17 146).1.tx_buf.length
        = popcount 146 + 2 ∧
    (ti_ads79xx_update_scan_mode ti_ads79xx_probe_state 17 146).1.tx_buf.take
          (popcount 146)
        = ((List.range 17).filter (146 : Nat).testBit).map
            (fun i => ti_ads79xx_cmd i ti_ads79xx_probe_state.settings) ∧
    (ti_ads79xx_update_scan_mode ti_ads79xx_probe_state 17 146).1.tx_buf.drop
          (popcount 146)
        = [0, 0] ∧
    (ti_ads79xx_update_scan_mode ti_ads79xx_probe_state 17 146).1.ring_xfer_len
        = (popcount 146 + 2) * 2) :=
  ⟨by decide,
    ti_ads79xx_update_scan_mode_spec ti_ads79xx_probe_state 17 146 (by decide)⟩

/-- Witness for C2 at channel 3 with received word 0x3ABC (= 15036). -/
theorem ti_ads79xx_scan_direct_witness :
    (15036 : Nat) < 2 ^ 16 ∧
    (((0 : Int) ≠ 0 →
      (ti_ads79xx_scan_direct ti_ads79xx_probe_state 3 0 15036).2 = 0) ∧
    ((0 : Int) = 0 → EXTRACT 15036 12 4 = 3 →
      (ti_ads79xx_scan_direct ti_ads79xx_probe_state 3 0 15036).2
          = Int.ofNat (EXTRACT 15036 0 12) ∧
      0 ≤ (ti_ads79xx_scan_direct ti_ads79xx_probe_state 3 0 15036).2) ∧
    ((0 : Int) = 0 → EXTRACT 15036 12 4 ≠ 3 →
      (ti_ads79xx_scan_direct ti_ads79xx_probe_state 3 0 15036).2 = -EAGAIN)) :=
  ⟨by decide,
    ti_ads79xx_scan_direct_spec ti_ads79xx_probe_state 3 0 15036 (by decide)⟩

/-- Witness for the amended C3 at channel 3 and the probe-time settings word
4160 (= MANUAL | RANGE_5V). -/
theorem ti_ads79xx_encode_witness :
    (3 : Nat) < 16 ∧
    (4160 : Nat).testBit 12 = true ∧
    EXTRACT 4160 7 4 = 0 ∧
    ((ti_ads79xx_encode 3 4160).testBit 12 = true ∧
    (ti_ads79xx_encode 3 4160).testBit 11 = true ∧
    EXTRACT (ti_ads79xx_encode 3 4160) 7 4 = 3 ∧
    EXTRACT (ti_ads79xx_encode 3 4160) 6 1 = EXTRACT 4160 6 1) :=
  ⟨by decide, by decide, by decide,
    ti_ads79xx_encode_spec 3 4160 (by decide) (by decide) (by decide)⟩

/-- Witness for C4 at Vref = 2500000 microvolts with the probe-time settings
(5V-range bit set) and a 12-bit channel. -/
theorem ti_ads79xx_get_range_witness :
    (0 : Int) ≤ 2500000 ∧
    ti_ads79xx_probe_state.settings &&& ADS79XX_CR_RANGE_5V ≠ 0 ∧
    ti_ads79xx_get_range ti_ads79xx_probe_state 2500000
        = 2 * (2500000 / 1000) ∧
    (ti_ads79xx_read_raw ti_ads79xx_probe_state (ADS79XX_V_CHAN 0 12)
        IIO_CHAN_INFO_SCALE 0 0 2500000).2.2.1
        = ti_ads79xx_get_range ti_ads79xx_probe_state 2500000 ∧
    (ti_ads79xx_read_raw ti_ads79xx_probe_state (ADS79XX_V_CHAN 0 12)
        IIO_CHAN_INFO_SCALE 0 0 2500000).2.2.2
        = Int.ofNat (2 ^ (ADS79XX_V_CHAN 0 12).scan_type.realbits - 1) :=
  ⟨by decide, by decide,
    ((ti_ads79xx_get_range_spec ti_ads79xx_probe_state (ADS79XX_V_CHAN 0 12)
        2500000).2 (by decide)).1 (by decide),
    ((ti_ads79xx_get_range_spec ti_ads79xx_probe_state (ADS79XX_V_CHAN 0 12)
        2500000).2 (by decide)).2.2.2.1,
    ((ti_ads79xx_get_range_spec ti_ads79xx_probe_state (ADS79XX_V_CHAN 0 12)
        2500000).2 (by decide)).2.2.2.2⟩

/-- Witness for C5 at the 12-bit variant's channel 3 with received word
0x3ABC (= 15036). -/
theorem ti_ads79xx_read_raw_raw_witness :
    ({ channels := ti_ads7950_channels,
       num_channels := ti_ads7950_channels.length } : TiAds79xxChipInfo)
        ∈ ti_ads79xx_chip_info ∧
    ADS79XX_V_CHAN 3 12 ∈ ti_ads7950_channels ∧
    (ADS79XX_V_CHAN 3 12).type = IioChanType.voltage ∧
    (15036 : Nat) < 2 ^ 16 ∧
    EXTRACT 15036 12 4 = (ADS79XX_V_CHAN 3 12).address ∧
    ((ti_ads79xx_read_raw ti_ads79xx_probe_state (ADS79XX_V_CHAN 3 12)
        IIO_CHAN_INFO_RAW 0 15036 0).2.1 = IIO_VAL_INT ∧
    (ti_ads79xx_read_raw ti_ads79xx_probe_state (ADS79XX_V_CHAN 3 12)
        IIO_CHAN_INFO_RAW 0 15036 0).2.2.1
        = Int.ofNat (EXTRACT 15036 0 12
            >>> (12 - (ADS79XX_V_CHAN 3 12).scan_type.realbits)) ∧
    0 ≤ (ti_ads79xx_read_raw ti_ads79xx_probe_state (ADS79XX_V_CHAN 3 12)
        IIO_CHAN_INFO_RAW 0 15036 0).2.2.1 ∧
    (ti_ads79xx_read_raw ti_ads79xx_probe_state (ADS79XX_V_CHAN 3 12)
        IIO_CHAN_INFO_RAW 0 15036 0).2.2.1
        < Int.ofNat (2 ^ (ADS79XX_V_CHAN 3 12).scan_type.realbits)) :=
  ⟨by decide, by decide, by decide, by decide, by decide,
    ti_ads79xx_read_raw_raw_spec
      { channels := ti_ads7950_channels,
        num_channels := ti_ads7950_channels.length }
      (by decide) (ADS79XX_V_CHAN 3 12) (by decide) (by decide)
      ti_ads79xx_probe_state 15036 0 (by decide) (by decide)⟩

/-- Witness for C6 at a successful transfer with RX words
[0, 0, 0xAAA, 0x1BBB, 0]. -/
theorem ti_ads79xx_trigger_handler_witness :
    (ti_ads79xx_trigger_handler ti_ads79xx_probe_state 0
        [0, 0, 2730, 7099, 0] 5).done_calls = 1 ∧
    (ti_ads79xx_trigger_handler ti_ads79xx_probe_state 0
        [0, 0, 2730, 7099, 0] 5).ret = IRQ_HANDLED ∧
    ((0 : Int) ≠ 0 →
      (ti_ads79xx_trigger_handler ti_ads79xx_probe_state 0
        [0, 0, 2730, 7099, 0] 5).pushed = none) ∧
    ((0 : Int) = 0 →
      (ti_ads79xx_trigger_handler ti_ads79xx_probe_state 0
        [0, 0, 2730, 7099, 0] 5).pushed
        = some ((ti_ads79xx_trigger_handler ti_ads79xx_probe_state 0
            [0, 0, 2730, 7099, 0] 5).state.rx_buf.drop 2, 5) ∧
      (ti_ads79xx_trigger_handler ti_ads79xx_probe_state 0
        [0, 0, 2730, 7099, 0] 5).state.rx_buf = [0, 0, 2730, 7099, 0]) :=
  ti_ads79xx_trigger_handler_spec ti_ads79xx_probe_state 0
    [0, 0, 2730, 7099, 0] 5

/-- Witness for C8 at info mask 1 (neither RAW nor SCALE). -/
theorem ti_ads79xx_read_raw_invalid_mask_witness :
    (1 : Nat) ≠ IIO_CHAN_INFO_RAW ∧
    (1 : Nat) ≠ IIO_CHAN_INFO_SCALE ∧
    (ti_ads79xx_read_raw ti_ads79xx_probe_state (ADS79XX_V_CHAN 0 12)
        1 0 0 0).2.1 = -EINVAL :=
  ⟨by decide, by decide,
    ti_ads79xx_read_raw_invalid_mask ti_ads79xx_probe_state
      (ADS79XX_V_CHAN 0 12) 1 0 0 0 (by decide) (by decide)⟩

/-- Witness for C9: preservation at a concrete scan-mode update and the bit
characterization at bit 12. -/
theorem ti_ads79xx_settings_invariant_witness :
    (ti_ads79xx_update_scan_mode ti_ads79xx_probe_state 17 146).1.settings
        = ti_ads79xx_probe_state.settings ∧
    ti_ads79xx_probe_state.settings.testBit 12 = true ∧
    (12 = 12 ∨ 12 = 6) :=
  ⟨ti_ads79xx_settings_invariant.2.1 ti_ads79xx_probe_state 17 146,
    by decide,
    ti_ads79xx_settings_invariant.2.2.2.2.2 12 (by decide)⟩
